import Mathlib

/-!
Shallow embedding of the SPIFlashA driver (src/SPIFlashA.cpp, src/SPIFlashA.h).

The driver talks to a SPANSION S25FL127S flash chip over a shared SPI bus.  We model
the driver methods as pure functions on a `State` that carries:
* the current shared SPI configuration registers `SPCR`/`SPSR` (abstracted as naturals;
  the concrete bit values written by the Arduino SPI library are irrelevant to the
  properties proved here and are represented by the fixed constants `flashSPCR`,
  `flashSPSR`),
* the interrupt-enable flag and the wire level of the chip-select pin,
* the driver instance fields `_SPCR`, `_SPSR`, `_jedecID` of class SPIFlashA,
* a device-response oracle: the list of bytes the device will shift out, one
  consumed per SPI transfer (an exhausted oracle shifts out 0, the idle-bus value),
* the trace of observable bus events (chip-select edges and transmitted bytes).

The `while (busy())` loops are embedded with explicit fuel equal to the length of the
response oracle.  This is exact, not a truncation: every busy iteration consumes two
oracle bytes, and a status read on an exhausted oracle returns 0, i.e. ready, so the
fuel can never run out while the device still reports busy.
-/

set_option maxHeartbeats 1000000

namespace SPIFlashA

/-- Observable bus events: chip-select driven low or high, and a byte shifted out on MOSI. -/
inductive Ev where
  | csLow : Ev
  | csHigh : Ev
  | xfer : Nat → Ev
deriving DecidableEq

/-- Driver fields of class SPIFlashA together with the bus and device environment. -/
structure State where
  /-- current value of the shared SPCR register -/
  spcr : Nat
  /-- current value of the shared SPSR register -/
  spsr : Nat
  /-- interrupts enabled flag (noInterrupts and interrupts) -/
  intsOn : Bool
  /-- wire level of the slave-select pin; true means deasserted -/
  csHigh : Bool
  /-- driver field holding the saved SPCR -/
  sSPCR : Nat
  /-- driver field holding the saved SPSR -/
  sSPSR : Nat
  /-- driver field holding the expected JEDEC identifier -/
  jedecID : Nat
  /-- bytes the device will shift out, one per transfer -/
  responses : List Nat
  /-- emitted bus events so far -/
  trace : List Ev
deriving DecidableEq

/-- Opcode 0x01: write status register (WRR). -/
def SPIFLASH_STATUSWRITE : Nat := 0x01
/-- Opcode 0x02: page program (PP). -/
def SPIFLASH_BYTEPAGEPROGRAM : Nat := 0x02
/-- Opcode 0x03: slow array read (READ). -/
def SPIFLASH_ARRAYREADLOWFREQ : Nat := 0x03
/-- Opcode 0x05: read status register 1 (RDSR1). -/
def SPIFLASH_STATUSREAD : Nat := 0x05
/-- Opcode 0x06: write enable (WREN). -/
def SPIFLASH_WRITEENABLE : Nat := 0x06
/-- Opcode 0x07: read status register 2 (RDSR2). -/
def SPIFLASH_STATUSREAD2 : Nat := 0x07
/-- Opcode 0x0B: fast array read, one dummy byte after the address (FAST_READ). -/
def SPIFLASH_ARRAYREAD : Nat := 0x0B
/-- Opcode 0x20: erase one 4K block (P4E). -/
def SPIFLASH_BLOCKERASE_4K : Nat := 0x20
/-- Opcode 0x60: bulk erase, the chip-erase opcode (BE). -/
def SPIFLASH_CHIPERASE : Nat := 0x60
/-- Opcode 0x4B: one-time-program read (OTP). -/
def SPIFLASH_MACREAD : Nat := 0x4B
/-- Opcode 0x9F: read JEDEC manufacturer and device ID. -/
def SPIFLASH_IDREAD : Nat := 0x9F
/-- Opcode 0xD8: erase one 64K block. -/
def SPIFLASH_BLOCKERASE_64K : Nat := 0xD8

/-- SPCR value set up by select() via the Arduino SPI library
(SPI mode 0, MSB first, clock divider 4, SPI enabled, master). -/
def flashSPCR : Nat := 0x50
/-- SPSR value set up by select() (SPI2X clear for divider 4). -/
def flashSPSR : Nat := 0x00

/-- SPI.transfer(b): shifts out the low byte of b, records it in the trace, and
shifts in the next oracle byte (0 when the oracle is exhausted). -/
def transfer (b : Nat) (st : State) : Nat × State :=
  ((st.responses.headD 0) % 256,
   { st with responses := st.responses.tail,
             trace := st.trace ++ [Ev.xfer (b % 256)] })

/-- select(): disable interrupts, save SPCR and SPSR into the driver fields, switch the
bus to the flash chip settings, and drive chip-select low. -/
def select (st : State) : State :=
  { st with intsOn := false,
            sSPCR := st.spcr, sSPSR := st.spsr,
            spcr := flashSPCR, spsr := flashSPSR,
            csHigh := false,
            trace := st.trace ++ [Ev.csLow] }

/-- unselect(): drive chip-select high, restore SPCR and SPSR from the driver fields,
and re-enable interrupts. -/
def unselect (st : State) : State :=
  { st with csHigh := true,
            spcr := st.sSPCR, spsr := st.sSPSR,
            intsOn := true,
            trace := st.trace ++ [Ev.csHigh] }

/-- readStatus(): select, transmit the RDSR1 opcode, read one status byte, unselect. -/
def readStatus (st : State) : Nat × State :=
  let st1 := select st
  let st2 := (transfer SPIFLASH_STATUSREAD st1).2
  let r := transfer 0 st2
  (r.1, unselect r.2)

/-- busy(): the low bit of the status register. -/
def busy (st : State) : Bool × State :=
  let r := readStatus st
  (r.1 % 2 == 1, r.2)

/-- One fuel-indexed unfolding of the loop: while (busy());.  Each busy iteration consumes
two oracle bytes, so fuel equal to the oracle length never runs out while the device is
still reporting busy (an exhausted oracle reads status 0, that is ready). -/
def busyWaitFuel : Nat → State → State
  | 0, st => (busy st).2
  | n + 1, st =>
      let r := busy st
      if r.1 then busyWaitFuel n r.2 else r.2

/-- The loop: while (busy());. -/
def busyWait (st : State) : State :=
  busyWaitFuel st.responses.length st

/-- Body of command() for a non-write command (the isWrite = false path): wait until the
device is no longer busy, select, and transmit the opcode, leaving the chip selected for
the payload bytes the caller will append. -/
def commandBody (cmd : Nat) (st : State) : State :=
  let st1 := busyWait st
  let st2 := select st1
  (transfer cmd st2).2

/-- command(cmd, isWrite): for a write command the C++ code first calls
command(SPIFLASH_WRITEENABLE) (the non-write path, which itself busy-polls before
transmitting 0x06), unselects, and then runs the non-write path again for the real
opcode; the recursive call is rendered by commandBody. -/
def command (cmd : Nat) (isWrite : Bool) (st : State) : State :=
  if isWrite then
    commandBody cmd (unselect (commandBody SPIFLASH_WRITEENABLE st))
  else
    commandBody cmd st

/-- readDeviceId(): select, transmit the JEDEC-ID-read opcode, shift in three identifier
bytes, unselect; returns (msb <<< 16) ||| (mid <<< 8) ||| lsb.  (The non-ATmega32U4
preprocessor branch of the source is modelled, which selects directly without command().) -/
def readDeviceId (st : State) : Nat × State :=
  let st1 := select st
  let st2 := (transfer SPIFLASH_IDREAD st1).2
  let r2 := transfer 0 st2
  let r1 := transfer 0 r2.2
  let r0 := transfer 0 r1.2
  ((r2.1 <<< 16) ||| (r1.1 <<< 8) ||| r0.1, unselect r0.2)

/-- A run of n data reads: each iteration transmits 0 and shifts in one byte;
returns the bytes read, in order. -/
def readLoop : Nat → State → List Nat × State
  | 0, st => ([], st)
  | n + 1, st =>
      let r := transfer 0 st
      let rest := readLoop n r.2
      (r.1 :: rest.1, rest.2)

/-- readUniqueId(): issue the OTP-read command, four address bytes of 0, then read
12 bytes into UNIQUEID; returns the 12 bytes read. -/
def readUniqueId (st : State) : List Nat × State :=
  let st1 := command SPIFLASH_MACREAD false st
  let st2 := (transfer 0 st1).2
  let st3 := (transfer 0 st2).2
  let st4 := (transfer 0 st3).2
  let st5 := (transfer 0 st4).2
  let r := readLoop 12 st5
  (r.1, unselect r.2)

/-- readByte(addr): slow-read command, three address bytes (high to low), one data read. -/
def readByte (addr : Nat) (st : State) : Nat × State :=
  let st1 := command SPIFLASH_ARRAYREADLOWFREQ false st
  let st2 := (transfer (addr >>> 16) st1).2
  let st3 := (transfer (addr >>> 8) st2).2
  let st4 := (transfer addr st3).2
  let r := transfer 0 st4
  (r.1, unselect r.2)

/-- readBytes(addr, buf, len): fast-read command, three address bytes, one dummy byte,
then len data reads; returns the bytes read. -/
def readBytes (addr len : Nat) (st : State) : List Nat × State :=
  let st1 := command SPIFLASH_ARRAYREAD false st
  let st2 := (transfer (addr >>> 16) st1).2
  let st3 := (transfer (addr >>> 8) st2).2
  let st4 := (transfer addr st3).2
  let st5 := (transfer 0 st4).2
  let r := readLoop len st5
  (r.1, unselect r.2)

/-- writeByte(addr, byt): page-program as a write command, three address bytes, one data byte. -/
def writeByte (addr byt : Nat) (st : State) : State :=
  let st1 := command SPIFLASH_BYTEPAGEPROGRAM true st
  let st2 := (transfer (addr >>> 16) st1).2
  let st3 := (transfer (addr >>> 8) st2).2
  let st4 := (transfer addr st3).2
  unselect (transfer byt st4).2

/-- The data loop of writeBytes: transmit each buffer byte in order. -/
def writeLoop : List Nat → State → State
  | [], st => st
  | b :: rest, st => writeLoop rest (transfer b st).2

/-- writeBytes(addr, buf, len): page-program as a write command, three address bytes,
then the buffer bytes (the buffer is modelled as the list of its len bytes). -/
def writeBytes (addr : Nat) (buf : List Nat) (st : State) : State :=
  let st1 := command SPIFLASH_BYTEPAGEPROGRAM true st
  let st2 := (transfer (addr >>> 16) st1).2
  let st3 := (transfer (addr >>> 8) st2).2
  let st4 := (transfer addr st3).2
  unselect (writeLoop buf st4)

/-- bulkErase(): the chip-erase opcode 0x60 as a write command, no payload. -/
def bulkErase (st : State) : State :=
  unselect (command SPIFLASH_CHIPERASE true st)

/-- blockErase4K(addr): the 4K-erase opcode as a write command, three address bytes. -/
def blockErase4K (addr : Nat) (st : State) : State :=
  let st1 := command SPIFLASH_BLOCKERASE_4K true st
  let st2 := (transfer (addr >>> 16) st1).2
  let st3 := (transfer (addr >>> 8) st2).2
  unselect (transfer addr st3).2

/-- blockErase64K(addr): the 64K-erase opcode as a write command, three address bytes. -/
def blockErase64K (addr : Nat) (st : State) : State :=
  let st1 := command SPIFLASH_BLOCKERASE_64K true st
  let st2 := (transfer (addr >>> 16) st1).2
  let st3 := (transfer (addr >>> 8) st2).2
  unselect (transfer addr st3).2

/-- The loop of blockErase32K: n iterations of blockErase4K, stepping the address by 4096. -/
def blockErase32KGo : Nat → Nat → State → State
  | 0, _, st => st
  | n + 1, a, st => blockErase32KGo n (a + 4096) (blockErase4K a st)

/-- blockErase32K(addr): eight consecutive 4K erases. -/
def blockErase32K (addr : Nat) (st : State) : State :=
  blockErase32KGo 8 addr st

/-- The loop of blockErase512K: n iterations of blockErase64K, stepping the address by 65536. -/
def blockErase512KGo : Nat → Nat → State → State
  | 0, _, st => st
  | n + 1, a, st => blockErase512KGo n (a + 65536) (blockErase64K a st)

/-- blockErase512K(addr): eight consecutive 64K erases. -/
def blockErase512K (addr : Nat) (st : State) : State :=
  blockErase512KGo 8 addr st

/-- chipErase(): delegates to blockErase512K(0). -/
def chipErase (st : State) : State :=
  blockErase512K 0 st

/-- The initialize() method (named init here because its C++ name is a reserved word in
Lean): save the bus registers, deassert chip-select, wake the chip (a no-op), wait until
ready, and run the identifier check: when the expected identifier is zero the check is
short-circuited by the C++ logical-or and readDeviceId is never called; on success the
status register is written to 0 (global unprotect) and true is returned. -/
def init (st : State) : Bool × State :=
  let st0 := { st with sSPCR := st.spcr, sSPSR := st.spsr }
  let st1 := unselect st0
  let st2 := busyWait st1
  if st2.jedecID = 0 then
    let st3 := command SPIFLASH_STATUSWRITE true st2
    let st4 := (transfer 0 st3).2
    (true, unselect st4)
  else
    let r := readDeviceId st2
    if r.1 = r.2.jedecID then
      let st3 := command SPIFLASH_STATUSWRITE true r.2
      let st4 := (transfer 0 st3).2
      (true, unselect st4)
    else
      (false, r.2)

/-- A run of n transfers of byte 0 whose read values are only printed, as in printRDID. -/
def transferN : Nat → State → State
  | 0, st => st
  | n + 1, st => transferN n (transfer 0 st).2

/-- printStatus(): select, read status register 1 then status register 2, unselect.
Serial output is not modelled; only the bus traffic is. -/
def printStatus (st : State) : State :=
  let st1 := select st
  let st2 := (transfer SPIFLASH_STATUSREAD st1).2
  let st3 := (transfer 0 st2).2
  let st4 := (transfer SPIFLASH_STATUSREAD2 st3).2
  let st5 := (transfer 0 st4).2
  unselect st5

/-- printRDID(): select, transmit the JEDEC-ID-read opcode, read 320 bytes, unselect.
Serial output is not modelled; only the bus traffic is. -/
def printRDID (st : State) : State :=
  let st1 := select st
  let st2 := (transfer SPIFLASH_IDREAD st1).2
  unselect (transferN 320 st2)

/-- sleep(): a no-op for the SPANSION chip; the whole body is commented out in the source. -/
def sleep (st : State) : State := st

/-- wakeup(): a no-op for the SPANSION chip; the whole body is commented out in the source. -/
def wakeup (st : State) : State := st

/-- The identifier that initialize() compares against the expected one: the value
readDeviceId returns when called at the point initialize calls it. -/
def idRead (st : State) : Nat :=
  (readDeviceId (busyWait (unselect { st with sSPCR := st.spcr, sSPSR := st.spsr }))).1

/-- The bytes transmitted on the bus, extracted from an event trace. -/
def xferBytes : List Ev → List Nat
  | [] => []
  | Ev.xfer b :: r => b :: xferBytes r
  | _ :: r => xferBytes r

/-- The opcodes of a trace: the first byte transmitted after each falling chip-select edge. -/
def opcodesOf : List Ev → List Nat
  | Ev.csLow :: Ev.xfer b :: r => b :: opcodesOf r
  | _ :: r => opcodesOf r
  | [] => []

/-- The event block of one status poll: select, RDSR1 opcode, one read, unselect. -/
def pollBlock : List Ev :=
  [Ev.csLow, Ev.xfer 5, Ev.xfer 0, Ev.csHigh]

/-- k consecutive status-poll event blocks. -/
def pollBlocks : Nat → List Ev
  | 0 => []
  | k + 1 => pollBlock ++ pollBlocks k

/-- The bytes transmitted by k status polls. -/
def pollTx : Nat → List Nat
  | 0 => []
  | k + 1 => 5 :: 0 :: pollTx k

/-- The three address bytes the driver transmits for an address: high, middle, low. -/
def addrBytes (addr : Nat) : List Nat :=
  [(addr >>> 16) % 256, (addr >>> 8) % 256, addr % 256]

/-- The shared-bus part of the per-transaction invariant: when an operation taking the
driver from st to st1 returns, chip-select is deasserted and the bus configuration
registers hold their pre-transaction values again. -/
def restored (st st1 : State) : Prop :=
  st1.csHigh = true ∧ st1.spcr = st.spcr ∧ st1.spsr = st.spsr

/-- Modelled from the spec: the page-program behavior of the flash chip itself, which is
hardware outside this repository (the source only documents it in the writeBytes
comment).  Programming proceeds byte by byte from the 24-bit start address; the page
(high 16 of the 24 address bits) stays fixed and the in-page offset wraps modulo 256. -/
def pageProgramGo (mem : Nat → Nat) (page off : Nat) : List Nat → (Nat → Nat)
  | [] => mem
  | d :: rest =>
      pageProgramGo (fun j => if j = page + off % 256 then d % 256 else mem j)
        page (off + 1) rest

/-- Modelled from the spec: the effect on the chip memory of a page-program command with
24-bit address addr and the given data bytes. -/
def pageProgram (mem : Nat → Nat) (addr : Nat) (data : List Nat) : Nat → Nat :=
  pageProgramGo mem (addr / 256 * 256) (addr % 256) data

/-- A convenient all-zero initial state with an empty oracle: the device reports ready
on every status read. -/
def st0 : State :=
  { spcr := 0, spsr := 0, intsOn := true, csHigh := true,
    sSPCR := 0, sSPSR := 0, jedecID := 0, responses := [], trace := [] }

/-- The initial state used to exercise a successful identifier check: the expected
identifier is 0x12018 and the oracle answers one status poll (ready) and then the
JEDEC id bytes 0x01 0x20 0x18. -/
def stId : State :=
  { spcr := 7, spsr := 1, intsOn := true, csHigh := true,
    sSPCR := 0, sSPSR := 0, jedecID := 0x12018,
    responses := [0, 0, 99, 0x01, 0x20, 0x18], trace := [] }

theorem tail_tail_eq_drop_two (l : List Nat) : l.tail.tail = l.drop 2 := by
  cases l with
  | nil => rfl
  | cons a t => cases t <;> rfl

theorem readStatus_snd (st : State) :
    (readStatus st).2 = { st with
      csHigh := true, intsOn := true,
      sSPCR := st.spcr, sSPSR := st.spsr,
      responses := st.responses.drop 2,
      trace := st.trace ++ pollBlock } := by
  simp [readStatus, select, transfer, unselect, pollBlock, SPIFLASH_STATUSREAD,
    tail_tail_eq_drop_two]

theorem readStatus_fst (st : State) :
    (readStatus st).1 = st.responses.tail.headD 0 % 256 := by
  simp [readStatus, select, transfer, unselect, SPIFLASH_STATUSREAD]

theorem busy_snd (st : State) : (busy st).2 = (readStatus st).2 := rfl

theorem busy_fst (st : State) :
    (busy st).1 = (st.responses.tail.headD 0 % 256 % 2 == 1) := by
  simp [busy, readStatus_fst]

theorem busyWaitFuel_spec (n : Nat) : ∀ st : State,
    ∃ k, 1 ≤ k ∧ busyWaitFuel n st = { st with
      csHigh := true, intsOn := true,
      sSPCR := st.spcr, sSPSR := st.spsr,
      responses := st.responses.drop (2 * k),
      trace := st.trace ++ pollBlocks k } := by
  induction n with
  | zero =>
      intro st
      refine ⟨1, Nat.le_refl 1, ?_⟩
      rw [busyWaitFuel, busy_snd, readStatus_snd]
      simp [pollBlocks]
  | succ n ih =>
      intro st
      rw [busyWaitFuel]
      by_cases hb : (busy st).1 = true
      · simp only [hb, if_true]
        obtain ⟨k, hk, heq⟩ := ih (busy st).2
        refine ⟨k + 1, by omega, ?_⟩
        rw [heq, busy_snd, readStatus_snd]
        simp [pollBlocks, List.drop_drop, List.append_assoc]
        congr 1
        omega
      · simp only [hb, if_false]
        refine ⟨1, Nat.le_refl 1, ?_⟩
        rw [busy_snd, readStatus_snd]
        simp [pollBlocks]

theorem busyWait_spec (st : State) :
    ∃ k, 1 ≤ k ∧ busyWait st = { st with
      csHigh := true, intsOn := true,
      sSPCR := st.spcr, sSPSR := st.spsr,
      responses := st.responses.drop (2 * k),
      trace := st.trace ++ pollBlocks k } :=
  busyWaitFuel_spec st.responses.length st

theorem commandBody_spec (cmd : Nat) (st : State) :
    ∃ k, 1 ≤ k ∧ commandBody cmd st = { st with
      csHigh := false, intsOn := false,
      sSPCR := st.spcr, sSPSR := st.spsr,
      spcr := flashSPCR, spsr := flashSPSR,
      responses := st.responses.drop (2 * k + 1),
      trace := st.trace ++ (pollBlocks k ++ [Ev.csLow, Ev.xfer (cmd % 256)]) } := by
  obtain ⟨k, hk, heq⟩ := busyWait_spec st
  refine ⟨k, hk, ?_⟩
  rw [commandBody, heq]
  simp [select, transfer, List.tail_drop, List.append_assoc]

theorem command_true_spec (cmd : Nat) (st : State) :
    ∃ k₁ k₂, 1 ≤ k₁ ∧ 1 ≤ k₂ ∧
      command cmd true st = { st with
      csHigh := false, intsOn := false,
        sSPCR := st.spcr, sSPSR := st.spsr,
        spcr := flashSPCR, spsr := flashSPSR,
        responses := st.responses.drop (2 * k₁ + 2 * k₂ + 2),
        trace := st.trace ++ (pollBlocks k₁ ++ [Ev.csLow, Ev.xfer 6, Ev.csHigh]
          ++ pollBlocks k₂ ++ [Ev.csLow, Ev.xfer (cmd % 256)]) } := by
  obtain ⟨k₁, hk₁, h₁⟩ := commandBody_spec SPIFLASH_WRITEENABLE st
  have hU : unselect (commandBody SPIFLASH_WRITEENABLE st) = { st with
      csHigh := true, intsOn := true,
      sSPCR := st.spcr, sSPSR := st.spsr,
      responses := st.responses.drop (2 * k₁ + 1),
      trace := st.trace ++ (pollBlocks k₁ ++ [Ev.csLow, Ev.xfer 6, Ev.csHigh]) } := by
    rw [h₁]
    simp [unselect, SPIFLASH_WRITEENABLE, List.append_assoc]
  obtain ⟨k₂, hk₂, h₂⟩ :=
    commandBody_spec cmd (unselect (commandBody SPIFLASH_WRITEENABLE st))
  rw [hU] at h₂
  simp only [List.drop_drop, List.append_assoc] at h₂
  refine ⟨k₁, k₂, hk₁, hk₂, ?_⟩
  rw [command, if_pos rfl, hU, h₂]
  simp [List.append_assoc]
  congr 1
  omega

theorem drop_tail_comm {α : Type} (l : List α) (n : Nat) :
    l.tail.drop n = l.drop (n + 1) := by
  rw [← List.drop_one, List.drop_drop, Nat.add_comm]

theorem readLoop_snd (n : Nat) : ∀ st : State, (readLoop n st).2 = { st with
      responses := st.responses.drop n,
      trace := st.trace ++ List.replicate n (Ev.xfer 0) } := by
  induction n with
  | zero => intro st; simp [readLoop]
  | succ n ih =>
      intro st
      rw [readLoop]
      simp [ih, transfer, drop_tail_comm, List.replicate_succ, List.append_assoc]

theorem transferN_spec (n : Nat) : ∀ st : State, transferN n st = { st with
      responses := st.responses.drop n,
      trace := st.trace ++ List.replicate n (Ev.xfer 0) } := by
  induction n with
  | zero => intro st; simp [transferN]
  | succ n ih =>
      intro st
      rw [transferN]
      simp [ih, transfer, drop_tail_comm, List.replicate_succ, List.append_assoc]

theorem writeLoop_spec (buf : List Nat) : ∀ st : State, writeLoop buf st = { st with
      responses := st.responses.drop buf.length,
      trace := st.trace ++ buf.map (fun b => Ev.xfer (b % 256)) } := by
  induction buf with
  | nil => intro st; simp [writeLoop]
  | cons b rest ih =>
      intro st
      rw [writeLoop]
      simp [ih, transfer, drop_tail_comm, List.append_assoc]

theorem readByte_snd (addr : Nat) (st : State) :
    ∃ k, 1 ≤ k ∧ (readByte addr st).2 = { st with
      csHigh := true, intsOn := true,
      sSPCR := st.spcr, sSPSR := st.spsr,
      responses := st.responses.drop (2 * k + 5),
      trace := st.trace ++ (pollBlocks k ++ [Ev.csLow, Ev.xfer 3,
        Ev.xfer ((addr >>> 16) % 256), Ev.xfer ((addr >>> 8) % 256),
        Ev.xfer (addr % 256), Ev.xfer 0, Ev.csHigh]) } := by
  obtain ⟨k, hk, h⟩ := commandBody_spec SPIFLASH_ARRAYREADLOWFREQ st
  refine ⟨k, hk, ?_⟩
  rw [readByte, command, if_neg (by simp), h]
  simp [transfer, unselect, SPIFLASH_ARRAYREADLOWFREQ, List.tail_drop, List.append_assoc]

theorem readBytes_snd (addr len : Nat) (st : State) :
    ∃ k, 1 ≤ k ∧ (readBytes addr len st).2 = { st with
      csHigh := true, intsOn := true,
      sSPCR := st.spcr, sSPSR := st.spsr,
      responses := st.responses.drop (2 * k + 5 + len),
      trace := st.trace ++ (pollBlocks k ++ [Ev.csLow, Ev.xfer 11,
        Ev.xfer ((addr >>> 16) % 256), Ev.xfer ((addr >>> 8) % 256),
        Ev.xfer (addr % 256), Ev.xfer 0] ++ List.replicate len (Ev.xfer 0)
        ++ [Ev.csHigh]) } := by
  obtain ⟨k, hk, h⟩ := commandBody_spec SPIFLASH_ARRAYREAD st
  refine ⟨k, hk, ?_⟩
  rw [readBytes, command, if_neg (by simp), h]
  simp [transfer, unselect, readLoop_snd, List.drop_drop, List.tail_drop,
    SPIFLASH_ARRAYREAD, List.append_assoc]

theorem writeByte_spec (addr byt : Nat) (st : State) :
    ∃ k₁ k₂, 1 ≤ k₁ ∧ 1 ≤ k₂ ∧ writeByte addr byt st = { st with
      csHigh := true, intsOn := true,
      sSPCR := st.spcr, sSPSR := st.spsr,
      responses := st.responses.drop (2 * k₁ + 2 * k₂ + 6),
      trace := st.trace ++ (pollBlocks k₁ ++ [Ev.csLow, Ev.xfer 6, Ev.csHigh]
        ++ pollBlocks k₂ ++ [Ev.csLow, Ev.xfer 2,
          Ev.xfer ((addr >>> 16) % 256), Ev.xfer ((addr >>> 8) % 256),
          Ev.xfer (addr % 256), Ev.xfer (byt % 256), Ev.csHigh]) } := by
  obtain ⟨k₁, k₂, hk₁, hk₂, h⟩ := command_true_spec SPIFLASH_BYTEPAGEPROGRAM st
  refine ⟨k₁, k₂, hk₁, hk₂, ?_⟩
  rw [writeByte, h]
  simp [transfer, unselect, SPIFLASH_BYTEPAGEPROGRAM, List.tail_drop, List.append_assoc]

theorem writeBytes_spec (addr : Nat) (buf : List Nat) (st : State) :
    ∃ k₁ k₂, 1 ≤ k₁ ∧ 1 ≤ k₂ ∧ writeBytes addr buf st = { st with
      csHigh := true, intsOn := true,
      sSPCR := st.spcr, sSPSR := st.spsr,
      responses := st.responses.drop (2 * k₁ + 2 * k₂ + 5 + buf.length),
      trace := st.trace ++ (pollBlocks k₁ ++ [Ev.csLow, Ev.xfer 6, Ev.csHigh]
        ++ pollBlocks k₂ ++ [Ev.csLow, Ev.xfer 2,
          Ev.xfer ((addr >>> 16) % 256), Ev.xfer ((addr >>> 8) % 256),
          Ev.xfer (addr % 256)] ++ buf.map (fun b => Ev.xfer (b % 256))
        ++ [Ev.csHigh]) } := by
  obtain ⟨k₁, k₂, hk₁, hk₂, h⟩ := command_true_spec SPIFLASH_BYTEPAGEPROGRAM st
  refine ⟨k₁, k₂, hk₁, hk₂, ?_⟩
  rw [writeBytes, h]
  simp [transfer, unselect, writeLoop_spec, List.drop_drop, List.tail_drop,
    SPIFLASH_BYTEPAGEPROGRAM, List.append_assoc]

theorem blockErase4K_spec (addr : Nat) (st : State) :
    ∃ k₁ k₂, 1 ≤ k₁ ∧ 1 ≤ k₂ ∧ blockErase4K addr st = { st with
      csHigh := true, intsOn := true,
      sSPCR := st.spcr, sSPSR := st.spsr,
      responses := st.responses.drop (2 * k₁ + 2 * k₂ + 5),
      trace := st.trace ++ (pollBlocks k₁ ++ [Ev.csLow, Ev.xfer 6, Ev.csHigh]
        ++ pollBlocks k₂ ++ [Ev.csLow, Ev.xfer 32,
          Ev.xfer ((addr >>> 16) % 256), Ev.xfer ((addr >>> 8) % 256),
          Ev.xfer (addr % 256), Ev.csHigh]) } := by
  obtain ⟨k₁, k₂, hk₁, hk₂, h⟩ := command_true_spec SPIFLASH_BLOCKERASE_4K st
  refine ⟨k₁, k₂, hk₁, hk₂, ?_⟩
  rw [blockErase4K, h]
  simp [transfer, unselect, SPIFLASH_BLOCKERASE_4K, List.tail_drop, List.append_assoc]

theorem blockErase64K_spec (addr : Nat) (st : State) :
    ∃ k₁ k₂, 1 ≤ k₁ ∧ 1 ≤ k₂ ∧ blockErase64K addr st = { st with
      csHigh := true, intsOn := true,
      sSPCR := st.spcr, sSPSR := st.spsr,
      responses := st.responses.drop (2 * k₁ + 2 * k₂ + 5),
      trace := st.trace ++ (pollBlocks k₁ ++ [Ev.csLow, Ev.xfer 6, Ev.csHigh]
        ++ pollBlocks k₂ ++ [Ev.csLow, Ev.xfer 216,
          Ev.xfer ((addr >>> 16) % 256), Ev.xfer ((addr >>> 8) % 256),
          Ev.xfer (addr % 256), Ev.csHigh]) } := by
  obtain ⟨k₁, k₂, hk₁, hk₂, h⟩ := command_true_spec SPIFLASH_BLOCKERASE_64K st
  refine ⟨k₁, k₂, hk₁, hk₂, ?_⟩
  rw [blockErase64K, h]
  simp [transfer, unselect, SPIFLASH_BLOCKERASE_64K, List.tail_drop, List.append_assoc]

theorem bulkErase_spec (st : State) :
    ∃ k₁ k₂, 1 ≤ k₁ ∧ 1 ≤ k₂ ∧ bulkErase st = { st with
      csHigh := true, intsOn := true,
      sSPCR := st.spcr, sSPSR := st.spsr,
      responses := st.responses.drop (2 * k₁ + 2 * k₂ + 2),
      trace := st.trace ++ (pollBlocks k₁ ++ [Ev.csLow, Ev.xfer 6, Ev.csHigh]
        ++ pollBlocks k₂ ++ [Ev.csLow, Ev.xfer 96, Ev.csHigh]) } := by
  obtain ⟨k₁, k₂, hk₁, hk₂, h⟩ := command_true_spec SPIFLASH_CHIPERASE st
  refine ⟨k₁, k₂, hk₁, hk₂, ?_⟩
  rw [bulkErase, h]
  simp [unselect, SPIFLASH_CHIPERASE, List.append_assoc]

theorem readDeviceId_snd (st : State) : (readDeviceId st).2 = { st with
      csHigh := true, intsOn := true,
      sSPCR := st.spcr, sSPSR := st.spsr,
      responses := st.responses.drop 4,
      trace := st.trace ++ [Ev.csLow, Ev.xfer 159, Ev.xfer 0, Ev.xfer 0,
        Ev.xfer 0, Ev.csHigh] } := by
  simp [readDeviceId, select, transfer, unselect, SPIFLASH_IDREAD,
    drop_tail_comm, ← List.drop_one, List.drop_drop, List.append_assoc]

theorem readUniqueId_snd (st : State) :
    ∃ k, 1 ≤ k ∧ (readUniqueId st).2 = { st with
      csHigh := true, intsOn := true,
      sSPCR := st.spcr, sSPSR := st.spsr,
      responses := st.responses.drop (2 * k + 17),
      trace := st.trace ++ (pollBlocks k ++ [Ev.csLow, Ev.xfer 75,
        Ev.xfer 0, Ev.xfer 0, Ev.xfer 0, Ev.xfer 0]
        ++ List.replicate 12 (Ev.xfer 0) ++ [Ev.csHigh]) } := by
  obtain ⟨k, hk, h⟩ := commandBody_spec SPIFLASH_MACREAD st
  refine ⟨k, hk, ?_⟩
  rw [readUniqueId, command, if_neg (by simp), h]
  simp [transfer, unselect, readLoop_snd, List.drop_drop, List.tail_drop,
    SPIFLASH_MACREAD, List.append_assoc]

theorem printStatus_spec (st : State) : printStatus st = { st with
      csHigh := true, intsOn := true,
      sSPCR := st.spcr, sSPSR := st.spsr,
      responses := st.responses.drop 4,
      trace := st.trace ++ [Ev.csLow, Ev.xfer 5, Ev.xfer 0, Ev.xfer 7,
        Ev.xfer 0, Ev.csHigh] } := by
  simp [printStatus, select, transfer, unselect, SPIFLASH_STATUSREAD,
    SPIFLASH_STATUSREAD2, drop_tail_comm, ← List.drop_one, List.drop_drop,
    List.append_assoc]

set_option maxRecDepth 8000 in
theorem printRDID_spec (st : State) : printRDID st = { st with
      csHigh := true, intsOn := true,
      sSPCR := st.spcr, sSPSR := st.spsr,
      responses := st.responses.drop 321,
      trace := st.trace ++ ([Ev.csLow, Ev.xfer 159]
        ++ List.replicate 320 (Ev.xfer 0) ++ [Ev.csHigh]) } := by
  simp [printRDID, select, transfer, unselect, SPIFLASH_IDREAD, transferN_spec,
    drop_tail_comm, ← List.drop_one, List.drop_drop, List.append_assoc]

theorem xferBytes_append (l₁ l₂ : List Ev) :
    xferBytes (l₁ ++ l₂) = xferBytes l₁ ++ xferBytes l₂ := by
  induction l₁ with
  | nil => rfl
  | cons e t ih => cases e <;> simp [xferBytes, ih]

theorem xferBytes_pollBlocks (k : Nat) : xferBytes (pollBlocks k) = pollTx k := by
  induction k with
  | zero => rfl
  | succ k ih => simp [pollBlocks, pollTx, pollBlock, xferBytes_append, xferBytes, ih]

theorem xferBytes_replicate (n : Nat) :
    xferBytes (List.replicate n (Ev.xfer 0)) = List.replicate n 0 := by
  induction n with
  | zero => rfl
  | succ n ih => simp [List.replicate_succ, xferBytes, ih]

theorem xferBytes_map (buf : List Nat) :
    xferBytes (buf.map (fun b => Ev.xfer (b % 256))) = buf.map (fun b => b % 256) := by
  induction buf with
  | nil => rfl
  | cons b t ih => simp [xferBytes, ih]

theorem pollTx_length (k : Nat) : (pollTx k).length = 2 * k := by
  induction k with
  | zero => rfl
  | succ k ih => simp [pollTx, ih]; omega

theorem mem_pollTx {b : Nat} {k : Nat} (h : b ∈ pollTx k) : b = 5 ∨ b = 0 := by
  induction k with
  | zero => simp [pollTx] at h
  | succ k ih =>
      rw [pollTx] at h
      simp at h
      rcases h with h | h | h
      · exact Or.inl h
      · exact Or.inr h
      · exact ih h

theorem mem_pollBlocks {e : Ev} {k : Nat} (h : e ∈ pollBlocks k) : e ∈ pollBlock := by
  induction k with
  | zero => simp [pollBlocks] at h
  | succ k ih =>
      rw [pollBlocks] at h
      rcases List.mem_append.mp h with h | h
      · exact h
      · exact ih h

theorem count_pollBlocks (e : Ev) (k : Nat) :
    (pollBlocks k).count e = k * pollBlock.count e := by
  induction k with
  | zero => simp [pollBlocks]
  | succ k ih => simp [pollBlocks, List.count_append, ih]; ring

theorem opcodesOf_append_pollBlocks (k : Nat) (r : List Ev) :
    opcodesOf (pollBlocks k ++ r) = List.replicate k 5 ++ opcodesOf r := by
  induction k with
  | zero => simp [pollBlocks]
  | succ k ih => simp [pollBlocks, pollBlock, List.replicate_succ, opcodesOf, ih]

theorem opcodesOf_no_csLow (l : List Ev) (h : Ev.csLow ∉ l) : opcodesOf l = [] := by
  induction l with
  | nil => rfl
  | cons e t ih =>
      cases e with
      | csLow => simp at h
      | csHigh =>
          simp at h
          simp [opcodesOf, ih h]
      | xfer b =>
          simp at h
          simp [opcodesOf, ih h]

theorem init_pre_spec (st : State) : ∃ k, 1 ≤ k ∧
    busyWait (unselect { st with sSPCR := st.spcr, sSPSR := st.spsr }) = { st with
      csHigh := true, intsOn := true, sSPCR := st.spcr, sSPSR := st.spsr,
      responses := st.responses.drop (2 * k),
      trace := st.trace ++ (Ev.csHigh :: pollBlocks k) } := by
  obtain ⟨k, hk, h⟩ :=
    busyWait_spec (unselect { st with sSPCR := st.spcr, sSPSR := st.spsr })
  refine ⟨k, hk, ?_⟩
  rw [h]
  simp [unselect, List.append_assoc]

theorem init_zero_spec (st : State) (hj : st.jedecID = 0) :
    (init st).1 = true ∧ ∃ k₀ k₁ k₂, 1 ≤ k₀ ∧ 1 ≤ k₁ ∧ 1 ≤ k₂ ∧
      (init st).2 = { st with
        csHigh := true, intsOn := true,
        sSPCR := st.spcr, sSPSR := st.spsr,
        responses := st.responses.drop (2 * k₀ + 2 * k₁ + 2 * k₂ + 3),
        trace := st.trace ++ (Ev.csHigh :: (pollBlocks k₀ ++ pollBlocks k₁
          ++ [Ev.csLow, Ev.xfer 6, Ev.csHigh] ++ pollBlocks k₂
          ++ [Ev.csLow, Ev.xfer 1, Ev.xfer 0, Ev.csHigh])) } := by
  obtain ⟨k₀, hk₀, h₀⟩ := init_pre_spec st
  obtain ⟨k₁, k₂, hk₁, hk₂, h₁⟩ := command_true_spec SPIFLASH_STATUSWRITE
    ({ st with
       csHigh := true, intsOn := true, sSPCR := st.spcr, sSPSR := st.spsr,
       responses := st.responses.drop (2 * k₀),
       trace := st.trace ++ (Ev.csHigh :: pollBlocks k₀) })
  constructor
  · simp only [init, h₀]
    rw [if_pos (by simp [hj])]
  · refine ⟨k₀, k₁, k₂, hk₀, hk₁, hk₂, ?_⟩
    simp only [init, h₀]
    rw [if_pos (by simp [hj]), h₁]
    simp only [List.drop_drop, List.append_assoc] at h₁ ⊢
    simp [transfer, unselect, SPIFLASH_STATUSWRITE, List.drop_drop,
      List.tail_drop, List.append_assoc]
    congr 1
    omega

theorem init_fst_iff (st : State) (hj : st.jedecID ≠ 0) :
    ((init st).1 = true ↔ idRead st = st.jedecID) := by
  obtain ⟨k₀, hk₀, h₀⟩ := init_pre_spec st
  simp only [init, idRead, h₀]
  rw [if_neg (by simp [hj])]
  rw [readDeviceId_snd]
  simp only []
  split
  · next hc => simp_all
  · next hc => simp_all

theorem statuswrite_tail_restored (st X : State) (h1 : X.spcr = st.spcr)
    (h2 : X.spsr = st.spsr) :
    restored st (unselect ((transfer 0 (command SPIFLASH_STATUSWRITE true X)).2)) := by
  obtain ⟨k₁, k₂, hk₁, hk₂, h⟩ := command_true_spec SPIFLASH_STATUSWRITE X
  rw [h]
  simp [restored, transfer, unselect, h1, h2]

theorem init_snd_restored (st : State) : restored st (init st).2 := by
  by_cases hj : st.jedecID = 0
  · obtain ⟨-, k₀, k₁, k₂, -, -, -, heq⟩ := init_zero_spec st hj
    rw [heq]
    simp [restored]
  · obtain ⟨k₀, hk₀, h₀⟩ := init_pre_spec st
    simp only [init, h₀]
    rw [if_neg (by simp [hj])]
    rw [readDeviceId_snd]
    split
    · exact statuswrite_tail_restored st _ (by simp) (by simp)
    · simp [restored]

theorem blockErase32KGo_regs (n : Nat) : ∀ a st,
    (blockErase32KGo n a st).spcr = st.spcr ∧
    (blockErase32KGo n a st).spsr = st.spsr := by
  induction n with
  | zero => intro a st; simp [blockErase32KGo]
  | succ n ih =>
      intro a st
      obtain ⟨k₁, k₂, -, -, h⟩ := blockErase4K_spec a st
      obtain ⟨i1, i2⟩ := ih (a + 4096) (blockErase4K a st)
      rw [blockErase32KGo]
      rw [i1, i2, h]
      simp

theorem blockErase32KGo_cs (n : Nat) : ∀ a st,
    (blockErase32KGo (n + 1) a st).csHigh = true := by
  induction n with
  | zero =>
      intro a st
      obtain ⟨k₁, k₂, -, -, h⟩ := blockErase4K_spec a st
      simp [blockErase32KGo, h]
  | succ n ih =>
      intro a st
      rw [blockErase32KGo]
      exact ih (a + 4096) (blockErase4K a st)

theorem blockErase512KGo_regs (n : Nat) : ∀ a st,
    (blockErase512KGo n a st).spcr = st.spcr ∧
    (blockErase512KGo n a st).spsr = st.spsr := by
  induction n with
  | zero => intro a st; simp [blockErase512KGo]
  | succ n ih =>
      intro a st
      obtain ⟨k₁, k₂, -, -, h⟩ := blockErase64K_spec a st
      obtain ⟨i1, i2⟩ := ih (a + 65536) (blockErase64K a st)
      rw [blockErase512KGo]
      rw [i1, i2, h]
      simp

theorem blockErase512KGo_cs (n : Nat) : ∀ a st,
    (blockErase512KGo (n + 1) a st).csHigh = true := by
  induction n with
  | zero =>
      intro a st
      obtain ⟨k₁, k₂, -, -, h⟩ := blockErase64K_spec a st
      simp [blockErase512KGo, h]
  | succ n ih =>
      intro a st
      rw [blockErase512KGo]
      exact ih (a + 65536) (blockErase64K a st)

theorem pageProgramGo_bounds (data : List Nat) : ∀ (mem : Nat → Nat) (page off j : Nat),
    pageProgramGo mem page off data j ≠ mem j → page ≤ j ∧ j < page + 256 := by
  induction data with
  | nil =>
      intro mem page off j h
      simp [pageProgramGo] at h
  | cons d rest ih =>
      intro mem page off j h
      rw [pageProgramGo] at h
      by_cases hj : pageProgramGo (fun j' => if j' = page + off % 256 then d % 256 else mem j')
          page (off + 1) rest j = (if j = page + off % 256 then d % 256 else mem j)
      · rw [hj] at h
        by_cases he : j = page + off % 256
        · subst he
          have : off % 256 < 256 := Nat.mod_lt _ (by omega)
          omega
        · simp [he] at h
      · exact ih _ page (off + 1) j hj

theorem xfer_mem_pollBlock {b : Nat} (h : Ev.xfer b ∈ pollBlock) : b = 5 ∨ b = 0 := by
  simp [pollBlock] at h
  exact h

theorem blockErase512KGo_trace (n : Nat) : ∀ (a : Nat) (st : State),
    ∃ S, (blockErase512KGo n a st).trace = st.trace ++ S ∧
      ((∀ i, i < n → ((a + 65536 * i) >>> 16) % 256 ≠ 216 ∧
          ((a + 65536 * i) >>> 8) % 256 ≠ 216 ∧ (a + 65536 * i) % 256 ≠ 216) →
        S.count (Ev.xfer 216) = n) ∧
      (∀ b, Ev.xfer b ∈ S → (b = 5 ∨ b = 0 ∨ b = 6 ∨ b = 216) ∨
        ∃ i, i < n ∧ (b = ((a + 65536 * i) >>> 16) % 256 ∨
          b = ((a + 65536 * i) >>> 8) % 256 ∨ b = (a + 65536 * i) % 256)) := by
  induction n with
  | zero =>
      intro a st
      exact ⟨[], by simp [blockErase512KGo], by simp, by simp⟩
  | succ n ih =>
      intro a st
      obtain ⟨k₁, k₂, hk₁, hk₂, h⟩ := blockErase64K_spec a st
      obtain ⟨S', hS', hcount, hmem⟩ := ih (a + 65536) (blockErase64K a st)
      refine ⟨(pollBlocks k₁ ++ [Ev.csLow, Ev.xfer 6, Ev.csHigh]
        ++ pollBlocks k₂ ++ [Ev.csLow, Ev.xfer 216,
          Ev.xfer ((a >>> 16) % 256), Ev.xfer ((a >>> 8) % 256),
          Ev.xfer (a % 256), Ev.csHigh]) ++ S', ?_, ?_, ?_⟩
      · rw [blockErase512KGo, hS', h]
        simp [List.append_assoc]
      · intro hyp
        obtain ⟨hA, hB, hC⟩ := hyp 0 (by omega)
        simp only [Nat.mul_zero, Nat.add_zero] at hA hB hC
        have hc1 : (pollBlocks k₁).count (Ev.xfer 216) = 0 := by
          rw [count_pollBlocks]
          simp [pollBlock]
        have hc2 : (pollBlocks k₂).count (Ev.xfer 216) = 0 := by
          rw [count_pollBlocks]
          simp [pollBlock]
        have hcS : S'.count (Ev.xfer 216) = n := by
          apply hcount
          intro i hi
          have hi1 := hyp (i + 1) (by omega)
          have harith : a + 65536 * (i + 1) = a + 65536 + 65536 * i := by ring
          rw [harith] at hi1
          exact hi1
        simp only [List.count_append, hc1, hc2, hcS]
        simp [List.count_cons, hA.symm, hB.symm, hC.symm]
        omega
      · intro b hb
        simp only [List.append_assoc, List.mem_append] at hb
        rcases hb with h1 | h2 | h3 | h4 | h5
        · rcases xfer_mem_pollBlock (mem_pollBlocks h1) with h | h
          · exact Or.inl (Or.inl h)
          · exact Or.inl (Or.inr (Or.inl h))
        · simp at h2
          exact Or.inl (Or.inr (Or.inr (Or.inl h2)))
        · rcases xfer_mem_pollBlock (mem_pollBlocks h3) with h | h
          · exact Or.inl (Or.inl h)
          · exact Or.inl (Or.inr (Or.inl h))
        · simp at h4
          rcases h4 with h | h | h | h
          · exact Or.inl (Or.inr (Or.inr (Or.inr h)))
          · exact Or.inr ⟨0, by omega, by simpa using Or.inl h⟩
          · exact Or.inr ⟨0, by omega, by simpa using Or.inr (Or.inl h)⟩
          · exact Or.inr ⟨0, by omega, by simpa using Or.inr (Or.inr h)⟩
        · rcases hmem b h5 with h | ⟨i, hi, hc⟩
          · exact Or.inl h
          · refine Or.inr ⟨i + 1, by omega, ?_⟩
            have harith : a + 65536 * (i + 1) = a + 65536 + 65536 * i := by ring
            rw [harith]
            exact hc

/-- Claim C5: for every address addr, blockErase32K(addr) performs exactly eight
blockErase4K calls, in order, at addresses addr, addr+4096, addr+8192, ..., addr+28672. -/
theorem blockErase32K_eq_eight_4K_erases (addr : Nat) (st : State) :
    blockErase32K addr st =
      blockErase4K (addr + 28672) (blockErase4K (addr + 24576)
        (blockErase4K (addr + 20480) (blockErase4K (addr + 16384)
        (blockErase4K (addr + 12288) (blockErase4K (addr + 8192)
        (blockErase4K (addr + 4096) (blockErase4K addr st))))))) := by
  simp [blockErase32K, blockErase32KGo, Nat.add_assoc]

/-- Claim C6: for every address addr, blockErase512K(addr) performs exactly eight
blockErase64K calls, in order, at addresses addr, addr+65536, ..., addr+458752. -/
theorem blockErase512K_eq_eight_64K_erases (addr : Nat) (st : State) :
    blockErase512K addr st =
      blockErase64K (addr + 458752) (blockErase64K (addr + 393216)
        (blockErase64K (addr + 327680) (blockErase64K (addr + 262144)
        (blockErase64K (addr + 196608) (blockErase64K (addr + 131072)
        (blockErase64K (addr + 65536) (blockErase64K addr st))))))) := by
  simp [blockErase512K, blockErase512KGo, Nat.add_assoc]

/-- Claim C8: sleep() and wakeup() are no-ops: the entire driver and bus state
(chip-select, saved SPI configuration, emitted trace) is unchanged by either call. -/
theorem sleep_wakeup_noop (st : State) : sleep st = st ∧ wakeup st = st :=
  ⟨rfl, rfl⟩

/-- Claim C2: every address-taking operation transmits, right after its opcode, exactly
three address bytes equal to the address truncated to its low 24 bits, most significant
byte first; the last conjunct states that the three transmitted bytes are exactly the
MSB-first decomposition of addr mod 2^24. -/
theorem address_bytes_msb_first (addr len b : Nat) (buf : List Nat) (st : State) :
    (∃ k, xferBytes (readByte addr st).2.trace =
        xferBytes st.trace ++ (pollTx k ++ [3] ++ addrBytes addr ++ [0])) ∧
    (∃ k, xferBytes (readBytes addr len st).2.trace =
        xferBytes st.trace ++ (pollTx k ++ [11] ++ addrBytes addr ++ [0]
          ++ List.replicate len 0)) ∧
    (∃ k₁ k₂, xferBytes (writeByte addr b st).trace =
        xferBytes st.trace ++ (pollTx k₁ ++ [6] ++ pollTx k₂ ++ [2]
          ++ addrBytes addr ++ [b % 256])) ∧
    (∃ k₁ k₂, xferBytes (writeBytes addr buf st).trace =
        xferBytes st.trace ++ (pollTx k₁ ++ [6] ++ pollTx k₂ ++ [2]
          ++ addrBytes addr ++ buf.map (fun x => x % 256))) ∧
    (∃ k₁ k₂, xferBytes (blockErase4K addr st).trace =
        xferBytes st.trace ++ (pollTx k₁ ++ [6] ++ pollTx k₂ ++ [32]
          ++ addrBytes addr)) ∧
    (∃ k₁ k₂, xferBytes (blockErase64K addr st).trace =
        xferBytes st.trace ++ (pollTx k₁ ++ [6] ++ pollTx k₂ ++ [216]
          ++ addrBytes addr)) ∧
    addrBytes addr = [addr % 16777216 / 65536, addr % 16777216 / 256 % 256,
      addr % 16777216 % 256] := by
  refine ⟨?_, ?_, ?_, ?_, ?_, ?_, ?_⟩
  · obtain ⟨k, hk, h⟩ := readByte_snd addr st
    refine ⟨k, ?_⟩
    rw [h]
    simp [addrBytes, xferBytes_append, xferBytes_pollBlocks, xferBytes,
      List.append_assoc]
  · obtain ⟨k, hk, h⟩ := readBytes_snd addr len st
    refine ⟨k, ?_⟩
    rw [h]
    simp [addrBytes, xferBytes_append, xferBytes_pollBlocks, xferBytes,
      xferBytes_replicate, List.append_assoc]
  · obtain ⟨k₁, k₂, hk₁, hk₂, h⟩ := writeByte_spec addr b st
    refine ⟨k₁, k₂, ?_⟩
    rw [h]
    simp [addrBytes, xferBytes_append, xferBytes_pollBlocks, xferBytes,
      List.append_assoc]
  · obtain ⟨k₁, k₂, hk₁, hk₂, h⟩ := writeBytes_spec addr buf st
    refine ⟨k₁, k₂, ?_⟩
    rw [h]
    simp [addrBytes, xferBytes_append, xferBytes_pollBlocks, xferBytes,
      xferBytes_map, List.append_assoc]
  · obtain ⟨k₁, k₂, hk₁, hk₂, h⟩ := blockErase4K_spec addr st
    refine ⟨k₁, k₂, ?_⟩
    rw [h]
    simp [addrBytes, xferBytes_append, xferBytes_pollBlocks, xferBytes,
      List.append_assoc]
  · obtain ⟨k₁, k₂, hk₁, hk₂, h⟩ := blockErase64K_spec addr st
    refine ⟨k₁, k₂, ?_⟩
    rw [h]
    simp [addrBytes, xferBytes_append, xferBytes_pollBlocks, xferBytes,
      List.append_assoc]
  · simp [addrBytes, Nat.shiftRight_eq_div_pow]
    refine ⟨?_, ?_, ?_⟩ <;> omega

/-- Claim C3: when any bus operation returns, chip-select is deasserted and the shared
SPCR and SPSR registers hold their pre-transaction values again; the last conjunct shows
that one status poll (used by every busy-wait iteration) asserts and deasserts
chip-select itself. -/
theorem bus_restored_after_every_op (addr len b : Nat) (buf : List Nat) (st : State) :
    restored st (init st).2 ∧
    restored st (readDeviceId st).2 ∧
    restored st (readUniqueId st).2 ∧
    restored st (readByte addr st).2 ∧
    restored st (readBytes addr len st).2 ∧
    restored st (writeByte addr b st) ∧
    restored st (writeBytes addr buf st) ∧
    restored st (blockErase4K addr st) ∧
    restored st (blockErase32K addr st) ∧
    restored st (blockErase64K addr st) ∧
    restored st (blockErase512K addr st) ∧
    restored st (bulkErase st) ∧
    restored st (chipErase st) ∧
    restored st (readStatus st).2 ∧
    restored st (printStatus st) ∧
    restored st (printRDID st) ∧
    (readStatus st).2.trace = st.trace ++ pollBlock := by
  refine ⟨init_snd_restored st, ?_, ?_, ?_, ?_, ?_, ?_, ?_, ?_, ?_, ?_, ?_, ?_,
    ?_, ?_, ?_, ?_⟩
  · rw [readDeviceId_snd]
    simp [restored]
  · obtain ⟨k, hk, h⟩ := readUniqueId_snd st
    rw [h]
    simp [restored]
  · obtain ⟨k, hk, h⟩ := readByte_snd addr st
    rw [h]
    simp [restored]
  · obtain ⟨k, hk, h⟩ := readBytes_snd addr len st
    rw [h]
    simp [restored]
  · obtain ⟨k₁, k₂, hk₁, hk₂, h⟩ := writeByte_spec addr b st
    rw [h]
    simp [restored]
  · obtain ⟨k₁, k₂, hk₁, hk₂, h⟩ := writeBytes_spec addr buf st
    rw [h]
    simp [restored]
  · obtain ⟨k₁, k₂, hk₁, hk₂, h⟩ := blockErase4K_spec addr st
    rw [h]
    simp [restored]
  · exact ⟨blockErase32KGo_cs 7 addr st, (blockErase32KGo_regs 8 addr st).1,
      (blockErase32KGo_regs 8 addr st).2⟩
  · obtain ⟨k₁, k₂, hk₁, hk₂, h⟩ := blockErase64K_spec addr st
    rw [h]
    simp [restored]
  · exact ⟨blockErase512KGo_cs 7 addr st, (blockErase512KGo_regs 8 addr st).1,
      (blockErase512KGo_regs 8 addr st).2⟩
  · obtain ⟨k₁, k₂, hk₁, hk₂, h⟩ := bulkErase_spec st
    rw [h]
    simp [restored]
  · exact ⟨blockErase512KGo_cs 7 0 st, (blockErase512KGo_regs 8 0 st).1,
      (blockErase512KGo_regs 8 0 st).2⟩
  · rw [readStatus_snd]
    simp [restored]
  · rw [printStatus_spec]
    simp [restored]
  · rw [printRDID_spec]
    simp [restored]
  · rw [readStatus_snd]

/-- Claim C1 (counterexample): for writeByte(0,0) on a ready device the transmitted bytes
are 05 00 06 05 00 02 00 00 00 00: the byte sequence is not of the form
(status polls) 06 02 ... for any number of polls — a second busy-poll loop always runs
between the write-enable opcode and the real opcode, so the write-enable is not issued
immediately before the real opcode, and two status-read opcodes (0x05), i.e. two poll
loops, precede the real opcode rather than one. -/
theorem writeByte_single_poll_shape_false :
    xferBytes (writeByte 0 0 st0).trace = [5, 0, 6, 5, 0, 2, 0, 0, 0, 0] ∧
    ¬ (∃ k, xferBytes (writeByte 0 0 st0).trace =
        pollTx k ++ [6, 2, 0, 0, 0, 0]) ∧
    (xferBytes (writeByte 0 0 st0).trace).count 5 = 2 := by
  refine ⟨by rfl, ?_, by rfl⟩
  rintro ⟨k, hk⟩
  rw [show xferBytes (writeByte 0 0 st0).trace = [5, 0, 6, 5, 0, 2, 0, 0, 0, 0]
    from rfl] at hk
  have hl := congrArg List.length hk
  simp [pollTx_length] at hl
  have hk2 : k = 2 := by omega
  subst hk2
  simp [pollTx] at hk

/-- Claim C1 (amended): every write or erase command issued through command(cmd, true)
emits exactly one write-enable opcode (0x06) before the real opcode, but two busy-poll
loops run before the real opcode: one before the write-enable and one between the
write-enable and the real opcode, so the write-enable is separated from the real opcode
by the second loop's status traffic rather than issued immediately before it. -/
theorem write_command_one_wren_two_polls (cmd : Nat) (st : State) :
    ∃ k₁ k₂, 1 ≤ k₁ ∧ 1 ≤ k₂ ∧
      xferBytes (command cmd true st).trace =
        xferBytes st.trace ++ (pollTx k₁ ++ [6] ++ pollTx k₂ ++ [cmd % 256]) ∧
      6 ∉ pollTx k₁ ∧ 6 ∉ pollTx k₂ := by
  obtain ⟨k₁, k₂, hk₁, hk₂, h⟩ := command_true_spec cmd st
  refine ⟨k₁, k₂, hk₁, hk₂, ?_, ?_, ?_⟩
  · rw [h]
    simp [xferBytes_append, xferBytes_pollBlocks, xferBytes, List.append_assoc]
  · intro hm
    rcases mem_pollTx hm with h5 | h0 <;> omega
  · intro hm
    rcases mem_pollTx hm with h5 | h0 <;> omega

/-- Claim C4: when a nonzero expected identifier was configured, initialize() returns
true exactly when the identifier read from the chip equals the expected one, and false
exactly on mismatch. -/
theorem init_result_iff_id_match (st : State) (hj : st.jedecID ≠ 0) :
    ((init st).1 = true ↔ idRead st = st.jedecID) ∧
    ((init st).1 = false ↔ idRead st ≠ st.jedecID) := by
  have h := init_fst_iff st hj
  constructor
  · exact h
  · constructor
    · intro hf hid
      have := h.mpr hid
      rw [this] at hf
      exact Bool.noConfusion hf
    · intro hid
      cases hb : (init st).1 with
      | false => rfl
      | true => exact absurd (h.mp hb) hid

/-- Claim C4 (witness): with expected identifier 0x12018 and a device answering the
JEDEC id bytes 01 20 18, initialize() returns true and the identifier read is 0x12018. -/
theorem init_result_iff_id_match_witness :
    (init stId).1 = true ∧ idRead stId = 73752 :=
  ⟨(init_result_iff_id_match stId (by decide)).1.mpr (by decide), by decide⟩

/-- Claim C9: when the driver was constructed with expected identifier 0 (the default),
initialize() returns true unconditionally and the JEDEC-ID-read opcode (0x9F) is never
transmitted during the call: the identifier check is short-circuited. -/
theorem init_zero_short_circuit (st : State) (hj : st.jedecID = 0) :
    (init st).1 = true ∧
    Ev.xfer SPIFLASH_IDREAD ∉ (init st).2.trace.drop st.trace.length := by
  obtain ⟨htrue, k₀, k₁, k₂, hk₀, hk₁, hk₂, heq⟩ := init_zero_spec st hj
  refine ⟨htrue, ?_⟩
  rw [heq]
  simp only [SPIFLASH_IDREAD]
  rw [List.drop_left]
  intro hmem
  simp only [List.append_assoc, List.mem_cons, List.mem_append] at hmem
  rcases hmem with h | h | h | h | h | h
  · exact Ev.noConfusion h
  · exact absurd (mem_pollBlocks h) (by decide)
  · exact absurd (mem_pollBlocks h) (by decide)
  · simp at h
  · exact absurd (mem_pollBlocks h) (by decide)
  · simp at h

/-- Claim C9 (witness): from the all-zero initial state (expected identifier 0, ready
device), initialize() returns true and transmits no 0x9F byte. -/
theorem init_zero_short_circuit_witness :
    (init st0).1 = true ∧
    Ev.xfer SPIFLASH_IDREAD ∉ (init st0).2.trace.drop st0.trace.length :=
  init_zero_short_circuit st0 rfl

theorem opcodesOf_map_xfer_csHigh (buf : List Nat) :
    opcodesOf (buf.map (fun x => Ev.xfer (x % 256)) ++ [Ev.csHigh]) = [] := by
  apply opcodesOf_no_csLow
  simp

/-- Claim C7: writeBytes issues only status reads, one write enable and one page-program
command — its opcode trace is status polls, 0x06, status polls, 0x02, and in particular
no erase opcode (0x20, 0xD8, 0x60) is transmitted as a command; and the chip-side
page-program semantics (modelled from the spec) changes memory only inside the single
256-byte page addressed by the low 24 address bits, because the data wraps around within
that page instead of crossing into the next one. -/
theorem writeBytes_page_bounded_no_erase (addr : Nat) (buf : List Nat) (st : State) :
    (∃ k₁ k₂, 1 ≤ k₁ ∧ 1 ≤ k₂ ∧
      opcodesOf ((writeBytes addr buf st).trace.drop st.trace.length) =
        List.replicate k₁ 5 ++ [6] ++ List.replicate k₂ 5 ++ [2]) ∧
    32 ∉ opcodesOf ((writeBytes addr buf st).trace.drop st.trace.length) ∧
    216 ∉ opcodesOf ((writeBytes addr buf st).trace.drop st.trace.length) ∧
    96 ∉ opcodesOf ((writeBytes addr buf st).trace.drop st.trace.length) ∧
    (∀ mem j, pageProgram mem (addr % 16777216) (buf.map (fun x => x % 256)) j ≠ mem j →
      addr % 16777216 / 256 * 256 ≤ j ∧ j < addr % 16777216 / 256 * 256 + 256) := by
  obtain ⟨k₁, k₂, hk₁, hk₂, h⟩ := writeBytes_spec addr buf st
  have hop : opcodesOf ((writeBytes addr buf st).trace.drop st.trace.length) =
      List.replicate k₁ 5 ++ [6] ++ List.replicate k₂ 5 ++ [2] := by
    rw [h]
    simp only []
    rw [List.drop_left]
    simp [List.append_assoc, opcodesOf_append_pollBlocks, opcodesOf,
      opcodesOf_map_xfer_csHigh]
  refine ⟨⟨k₁, k₂, hk₁, hk₂, hop⟩, ?_, ?_, ?_, ?_⟩
  · rw [hop]
    simp [List.mem_replicate]
  · rw [hop]
    simp [List.mem_replicate]
  · rw [hop]
    simp [List.mem_replicate]
  · intro mem j hne
    simp only [pageProgram] at hne
    exact pageProgramGo_bounds _ mem _ _ j hne

/-- Claim C10: chipErase() is exactly blockErase512K(0): it never transmits the
chip-erase opcode 0x60 (not even as a data byte) and transmits the 64K-erase opcode
0xD8 exactly eight times, while bulkErase() issues 0x60 as a command opcode. -/
theorem chipErase_is_blockErase512K_zero (st : State) :
    chipErase st = blockErase512K 0 st ∧
    Ev.xfer 96 ∉ (chipErase st).trace.drop st.trace.length ∧
    ((chipErase st).trace.drop st.trace.length).count (Ev.xfer 216) = 8 ∧
    96 ∈ opcodesOf ((bulkErase st).trace.drop st.trace.length) := by
  obtain ⟨S, hS, hcount, hmem⟩ := blockErase512KGo_trace 8 0 st
  have htr : (chipErase st).trace.drop st.trace.length = S := by
    rw [show (chipErase st).trace = st.trace ++ S from hS, List.drop_left]
  refine ⟨rfl, ?_, ?_, ?_⟩
  · rw [htr]
    intro hm
    rcases hmem 96 hm with h | ⟨i, hi, hc⟩
    · omega
    · rcases hc with h | h | h <;>
        (simp [Nat.shiftRight_eq_div_pow] at h; omega)
  · rw [htr]
    apply hcount
    intro i hi
    refine ⟨?_, ?_, ?_⟩ <;> (simp [Nat.shiftRight_eq_div_pow]; omega)
  · obtain ⟨k₁, k₂, hk₁, hk₂, h⟩ := bulkErase_spec st
    rw [h]
    simp only []
    rw [List.drop_left]
    simp [List.append_assoc, opcodesOf_append_pollBlocks, opcodesOf]

end SPIFlashA
